import Mathlib

/-!
Verification development for the Supadata YouTube transcriber
(src/youtube_transcript_supadata.py).

The script is modelled as pure functions over explicit state:
file contents are lists of lines (an Option is none when the file is
missing), the two ledger files are lists of raw lines, the external
API and the file system are oracles supplied as inputs, and the
driver loop threads the ledger state while emitting a trace of
events (item invocations and fixed pauses).
-/

/-- Character class of Python str.strip() default whitespace
(restricted to the ASCII range, which is all the repository uses). -/
def isPySpace (c : Char) : Bool :=
  c == ' ' || c == '\t' || c == '\n' || c == '\r' || c == '\x0b' || c == '\x0c'

/-- Drop leading and trailing characters satisfying p, as Python str.strip does. -/
def trimCharsBy (p : Char → Bool) (cs : List Char) : List Char :=
  ((cs.dropWhile p).reverse.dropWhile p).reverse

/-- Python line.strip() with no argument. -/
def strTrim (s : String) : String :=
  String.mk (trimCharsBy isPySpace s.data)

/-- Python field.strip with a double-quote argument: remove every leading and
trailing double-quote character. -/
def stripQuotes (s : String) : String :=
  String.mk (trimCharsBy (fun c => c == '"') s.data)

/-- Python str.split(sep) for a single-character separator: split into the
(always nonempty) list of segments between occurrences of sep. -/
def splitOnChar (sep : Char) : List Char → List (List Char)
  | [] => [[]]
  | c :: rest =>
    if c == sep then [] :: splitOnChar sep rest
    else
      match splitOnChar sep rest with
      | [] => [[c]]
      | g :: gs => (c :: g) :: gs

/-- Python parts = s.split(tab); parts[0] if parts else empty. -/
def firstTabField (s : String) : String :=
  match splitOnChar '\t' s.data with
  | [] => ""
  | f :: _ => String.mk f

/-- Lines of a string, split at newline characters. -/
def splitNlS (s : String) : List String :=
  (splitOnChar '\n' s.data).map String.mk

/-- Model of load_completed_urls (lines 64-80): the file content is the list of
its lines (none when the file is missing); each line is stripped and kept when
nonempty.  The Python set is modelled by this list up to membership. -/
def load_completed_urls (file : Option (List String)) : List String :=
  match file with
  | none => []
  | some lines => (lines.map strTrim).filter (fun u => u != "")

/-- Model of load_failed_urls (lines 83-101): each line is stripped, split at
tabs, and the first field is kept when nonempty. -/
def load_failed_urls (file : Option (List String)) : List String :=
  match file with
  | none => []
  | some lines => (lines.map (fun l => firstTabField (strTrim l))).filter (fun u => u != "")

/-- Reading of claim C5's description of load_failed_urls taken literally:
the set of nonempty first tab-delimited fields of the file's lines,
with no whitespace stripping before the split. -/
def load_failed_urls_claim (file : Option (List String)) : List String :=
  match file with
  | none => []
  | some lines => (lines.map firstTabField).filter (fun u => u != "")

/-- The two ledger files as raw line lists (completed: one URL per line;
failed: url, tab, reason per line). -/
structure LedgerFiles where
  completed : List String
  failed : List String
deriving DecidableEq

/-- Model of save_completed_url (lines 104-113): append one line holding the URL. -/
def save_completed_url (url : String) (st : LedgerFiles) : LedgerFiles :=
  { st with completed := st.completed ++ [url] }

/-- Model of save_failed_url (lines 116-125): append one line holding the URL,
a tab, and the reason. -/
def save_failed_url (url reason : String) (st : LedgerFiles) : LedgerFiles :=
  { st with failed := st.failed ++ [url ++ "\t" ++ reason] }

/-- A URL record: (video_id, url, description). -/
abbrev UrlRec := String × String × String

/-- Result of read_csv_urls: the records, the row numbers warned about for
having fewer than two columns, and whether the missing-file message was shown. -/
structure CsvResult where
  urls : List UrlRec
  skippedRows : List Nat
  missingWarning : Bool
deriving DecidableEq

/-- Record built from one CSV row with at least two columns (lines 149-152). -/
def mkRecord (row : List String) : UrlRec :=
  (stripQuotes (row.getD 0 ""), stripQuotes (row.getD 1 ""),
   if 2 < row.length then stripQuotes (row.getD 2 "") else "")

/-- Loop of read_csv_urls over the parsed rows with 1-based row numbers
(lines 147-154): rows with at least two columns yield a record, the others
are warned about by row number. -/
def processRows : List (List String) → Nat → List UrlRec × List Nat
  | [], _ => ([], [])
  | row :: rest, n =>
    let (us, ws) := processRows rest (n + 1)
    if 2 ≤ row.length then (mkRecord row :: us, ws) else (us, n :: ws)

/-- Model of read_csv_urls (lines 128-161): the file content is the list of
rows already parsed by csv.reader (none when the file is missing). -/
def read_csv_urls (file : Option (List (List String))) : CsvResult :=
  match file with
  | none => { urls := [], skippedRows := [], missingWarning := true }
  | some rows =>
    let (us, ws) := processRows rows 1
    { urls := us, skippedRows := ws, missingWarning := false }

/-- Character class [a-zA-Z0-9_-] of the video-ID group in extract_video_id. -/
def isIdChar (c : Char) : Bool :=
  c.isAlphanum || c == '_' || c == '-'

/-- Consume exactly eleven id characters from the front, returning them
(the regex group with quantifier eleven), or fail. -/
def takeId (s : List Char) : Option (List Char) :=
  let t := s.take 11
  if t.length == 11 && t.all isIdChar then some t else none

/-- Match a literal followed by an eleven-character id group at the start of s. -/
def litIdAt (lit : List Char) (s : List Char) : Option (List Char) :=
  if lit.isPrefixOf s then takeId (s.drop lit.length) else none

/-- First alternative of the first pattern of extract_video_id (line 176):
the three literal alternatives are tried in order at one start position. -/
def p1At (s : List Char) : Option (List Char) :=
  match litIdAt ("youtube.com/watch?v=".data) s with
  | some r => some r
  | none =>
    match litIdAt ("youtu.be/".data) s with
    | some r => some r
    | none => litIdAt ("youtube.com/embed/".data) s

/-- Python re.search: try the position matcher f at every start position from
the left, first success wins. -/
def searchAux (f : List Char → Option (List Char)) : List Char → Option (List Char)
  | [] => f []
  | c :: rest =>
    match f (c :: rest) with
    | some r => some r
    | none => searchAux f rest

/-- Match v= followed by the id group at the start of s. -/
def vEqAt (s : List Char) : Option (List Char) :=
  litIdAt ("v=".data) s

/-- Greedy dot-star of the second pattern (line 177): the dot cannot cross a
newline, and backtracking prefers the rightmost position where v= and the
eleven-character group match. -/
def greedyVEq : List Char → Option (List Char)
  | [] => vEqAt []
  | c :: rest =>
    if c == '\n' then vEqAt (c :: rest)
    else
      match greedyVEq rest with
      | some r => some r
      | none => vEqAt (c :: rest)

/-- Second pattern of extract_video_id at one start position. -/
def p2At (s : List Char) : Option (List Char) :=
  if ("youtube.com/watch?".data).isPrefixOf s then greedyVEq (s.drop 18) else none

/-- Third pattern of extract_video_id (line 178) at one start position. -/
def p3At (s : List Char) : Option (List Char) :=
  litIdAt ("youtube.com/v/".data) s

/-- Model of extract_video_id (lines 164-186): the three patterns are tried
in order over the whole string, first match wins, its group is returned. -/
def extract_video_id (url : String) : Option String :=
  match searchAux p1At url.data with
  | some r => some (String.mk r)
  | none =>
    match searchAux p2At url.data with
    | some r => some (String.mk r)
    | none =>
      match searchAux p3At url.data with
      | some r => some (String.mk r)
      | none => none

/-- Declarative shape test: the string contains the literal followed by
eleven id characters somewhere. -/
def shapeAt (lit : List Char) (s : List Char) : Bool :=
  lit.isPrefixOf s && ((s.drop lit.length).take 11).length == 11
    && ((s.drop lit.length).take 11).all isIdChar

/-- Declarative substring search for shapeAt. -/
def shapeIn (lit : List Char) : List Char → Bool
  | [] => shapeAt lit []
  | c :: rest => shapeAt lit (c :: rest) || shapeIn lit rest

/-- Declarative tail of the loose watch shape: some position, reachable
without crossing a newline, where v= and eleven id characters start. -/
def vShapeFrom : List Char → Bool
  | [] => shapeAt ("v=".data) []
  | c :: rest => shapeAt ("v=".data) (c :: rest) || (c != '\n' && vShapeFrom rest)

/-- Declarative loose watch shape at one start position: the watch literal,
then arbitrary non-newline characters, then v= and the id. -/
def watchAnyVAt (s : List Char) : Bool :=
  ("youtube.com/watch?".data).isPrefixOf s && vShapeFrom (s.drop 18)

/-- Declarative substring search for watchAnyVAt. -/
def watchAnyVIn : List Char → Bool
  | [] => watchAnyVAt []
  | c :: rest => watchAnyVAt (c :: rest) || watchAnyVIn rest

/-- Shapes the source's patterns recognize, stated declaratively: the claim's
five URL shapes with the fifth one loosened to not require an ampersand
before v= (and restricted to a single line). -/
def codeShapes (url : String) : Bool :=
  shapeIn ("youtube.com/watch?v=".data) url.data
    || shapeIn ("youtu.be/".data) url.data
    || shapeIn ("youtube.com/embed/".data) url.data
    || watchAnyVIn url.data
    || shapeIn ("youtube.com/v/".data) url.data

/-- Declarative tail of claim C9's fifth shape taken literally: arbitrary
characters, then an ampersand, v= and the id. -/
def ampVFrom : List Char → Bool
  | [] => shapeAt ("&v=".data) []
  | c :: rest => shapeAt ("&v=".data) (c :: rest) || ampVFrom rest

/-- Claim C9's fifth shape at one start position, literally: watch? then
anything then an ampersand then v= and the id. -/
def watchAmpVAt (s : List Char) : Bool :=
  ("youtube.com/watch?".data).isPrefixOf s && ampVFrom (s.drop 18)

/-- Declarative substring search for watchAmpVAt. -/
def watchAmpVIn : List Char → Bool
  | [] => watchAmpVAt []
  | c :: rest => watchAmpVAt (c :: rest) || watchAmpVIn rest

/-- The five URL shapes exactly as claim C9 lists them. -/
def claimShapes (url : String) : Bool :=
  shapeIn ("youtube.com/watch?v=".data) url.data
    || shapeIn ("youtu.be/".data) url.data
    || shapeIn ("youtube.com/embed/".data) url.data
    || watchAmpVIn url.data
    || shapeIn ("youtube.com/v/".data) url.data

/-- Instructional message printed by load_environment when the key is absent
(lines 31-35); the empty entry is the blank line of the fourth print. -/
def credentialInstructions : List String :=
  ["Error: SUPADATA_API_KEY not found in environment variables.",
   "Please create a .env file with your API key:",
   "SUPADATA_API_KEY=your_actual_api_key_here",
   "",
   "Or set the environment variable:",
   "export SUPADATA_API_KEY=your_actual_api_key_here"]

/-- Model of load_environment (lines 22-38): the key from the environment, or
the printed instructions together with sys.exit(1). -/
def load_environment (apiKey : Option String) : Except (List String) String :=
  match apiKey with
  | none => Except.error credentialInstructions
  | some k => Except.ok k

/-- Outcome of the file system for ensure_transcripts_folder: the primary
directory works, only the fallback works, or both creations fail. -/
inductive FolderOutcome where
  | primary
  | fallback
  | bothFail (msg : String)
deriving DecidableEq

/-- Model of ensure_transcripts_folder (lines 41-61): the directory name, or
the exception message re-raised when even the fallback fails. -/
def ensure_transcripts_folder : FolderOutcome → Except String String
  | FolderOutcome.primary => Except.ok "transcripts"
  | FolderOutcome.fallback => Except.ok "transcripts_fallback"
  | FolderOutcome.bothFail m => Except.error m

/-- Outcome of the one Supadata API call of an item. -/
inductive FetchOutcome where
  | success (transcript : String)
  | supadataError (msg : String)
  | fetchError (msg : String)
deriving DecidableEq

/-- External outcomes consumed by one get_youtube_transcript invocation:
client construction, the API call, and the transcript file write. -/
structure ItemEnv where
  clientInitError : Option String
  fetch : FetchOutcome
  writeError : Option String
deriving DecidableEq

/-- Result of one get_youtube_transcript invocation: the process exited via
sys.exit inside load_environment (printing the given lines), or the function
returned the boolean. -/
inductive GytResult where
  | exited (msgs : List String)
  | returned (ok : Bool)
deriving DecidableEq

/-- Effect of one get_youtube_transcript invocation: result, ledger files
after the call, transcript files written, and how many API calls were made. -/
structure GytEffect where
  result : GytResult
  state : LedgerFiles
  files : List (String × String)
  apiCalls : Nat
deriving DecidableEq

/-- Fifty dashes of the separator line (line 227). -/
def dashes50 : String :=
  String.mk (List.replicate 50 '-')

/-- Content written to the transcript file on success (lines 221-230): four
labelled header lines, the separator line, a blank line, the transcript. -/
def transcriptFileContent (video_id url description language transcript : String) : String :=
  ("Video ID: " ++ video_id ++ "\n") ++ ("URL: " ++ url ++ "\n")
    ++ ("Description: " ++ description ++ "\n") ++ ("Language: " ++ language ++ "\n")
    ++ (dashes50 ++ "\n\n") ++ transcript

/-- Model of get_youtube_transcript (lines 189-265).  A missing key exits the
process (SystemExit passes the except clauses).  A folder failure or client
construction failure is caught by the outer except as an unexpected error;
API errors and write errors are caught by the inner excepts.  Every caught
error appends one failed-ledger line; success appends one completed line. -/
def get_youtube_transcript (apiKey : Option String) (fo : FolderOutcome) (ie : ItemEnv)
    (url video_id description language : String) (st : LedgerFiles) : GytEffect :=
  match load_environment apiKey with
  | Except.error msgs => { result := GytResult.exited msgs, state := st, files := [], apiCalls := 0 }
  | Except.ok _ =>
    match ensure_transcripts_folder fo with
    | Except.error m =>
      { result := GytResult.returned false,
        state := save_failed_url url ("Unexpected error: " ++ m) st, files := [], apiCalls := 0 }
    | Except.ok dir =>
      match ie.clientInitError with
      | some m =>
        { result := GytResult.returned false,
          state := save_failed_url url ("Unexpected error: " ++ m) st, files := [], apiCalls := 0 }
      | none =>
        match ie.fetch with
        | FetchOutcome.success t =>
          match ie.writeError with
          | some m =>
            { result := GytResult.returned false,
              state := save_failed_url url ("File save error: " ++ m) st, files := [],
              apiCalls := 1 }
          | none =>
            { result := GytResult.returned true, state := save_completed_url url st,
              files := [(dir ++ "/" ++ video_id ++ ".txt",
                transcriptFileContent video_id url description language t)],
              apiCalls := 1 }
        | FetchOutcome.supadataError m =>
          { result := GytResult.returned false,
            state := save_failed_url url ("Supadata API error: " ++ m) st, files := [],
            apiCalls := 1 }
        | FetchOutcome.fetchError m =>
          { result := GytResult.returned false,
            state := save_failed_url url ("Transcript fetch error: " ++ m) st, files := [],
            apiCalls := 1 }

/-- Whole environment of one run: the credential, the file system outcomes,
the three input files, and the per-item external outcomes (indexed by the
1-based position in the pending list). -/
structure World where
  apiKey : Option String
  folder : FolderOutcome
  csvRows : Option (List (List String))
  completedLines : Option (List String)
  failedLines : Option (List String)
  items : Nat → ItemEnv

/-- Observable event of the driver loop: one item handed to the fetcher, or
the fixed pause between items. -/
inductive Event where
  | invoke (r : UrlRec)
  | pause (secs : Nat)
deriving DecidableEq

/-- Projection selecting invocation events from a trace. -/
def invokeOf : Event → Option UrlRec
  | Event.invoke r => some r
  | Event.pause _ => none

/-- Accumulated outcome of the processing loop of process_csv_urls. -/
structure LoopOut where
  exitMsgs : Option (List String)
  trace : List Event
  final : LedgerFiles
  files : List (String × String)
  apiCalls : Nat
deriving DecidableEq

/-- Loop of process_csv_urls (lines 310-321): each pending record is handed to
get_youtube_transcript with the threaded ledger state; a five-second pause
follows every item except the last; a sys.exit inside an item stops the run. -/
def runLoop (w : World) (language : String) : List UrlRec → Nat → LedgerFiles → LoopOut
  | [], _, st => { exitMsgs := none, trace := [], final := st, files := [], apiCalls := 0 }
  | r :: rest, i, st =>
    let e := get_youtube_transcript w.apiKey w.folder (w.items i) r.2.1 r.1 r.2.2 language st
    match e.result with
    | GytResult.exited msgs =>
      { exitMsgs := some msgs, trace := [Event.invoke r], final := e.state, files := e.files,
        apiCalls := e.apiCalls }
    | GytResult.returned _ =>
      let tail := runLoop w language rest (i + 1) e.state
      { exitMsgs := tail.exitMsgs,
        trace := Event.invoke r ::
          (if rest.isEmpty then tail.trace else Event.pause 5 :: tail.trace),
        final := tail.final, files := e.files ++ tail.files,
        apiCalls := e.apiCalls + tail.apiCalls }

/-- Result of a whole run: the process exit code, the credential instructions
when the run died in load_environment, the loop trace, the final ledger
files, the transcript files written, and the number of API calls. -/
structure ProgramResult where
  exitCode : Nat
  credentialMsgs : Option (List String)
  trace : List Event
  final : LedgerFiles
  files : List (String × String)
  apiCalls : Nat
deriving DecidableEq

/-- Ledger files on disk at the start of a run (a missing file is empty). -/
def initLedger (w : World) : LedgerFiles :=
  { completed := w.completedLines.getD [], failed := w.failedLines.getD [] }

/-- Pending records of a run: CSV records whose URL is in neither loaded
ledger (line 295). -/
def pendingOf (w : World) : List UrlRec :=
  (read_csv_urls w.csvRows).urls.filter (fun r =>
    decide (r.2.1 ∉ load_completed_urls w.completedLines
      ∧ r.2.1 ∉ load_failed_urls w.failedLines))

/-- Model of process_csv_urls (lines 268-334): ensure the folder, load the
CSV and both ledgers, filter to the pending records, run the loop. -/
def process_csv_urls (w : World) (language : String) : ProgramResult :=
  match ensure_transcripts_folder w.folder with
  | Except.error _ =>
    { exitCode := 0, credentialMsgs := none, trace := [], final := initLedger w, files := [],
      apiCalls := 0 }
  | Except.ok _ =>
    let urls := (read_csv_urls w.csvRows).urls
    if urls.isEmpty then
      { exitCode := 0, credentialMsgs := none, trace := [], final := initLedger w, files := [],
        apiCalls := 0 }
    else
      let pending := pendingOf w
      if pending.isEmpty then
        { exitCode := 0, credentialMsgs := none, trace := [], final := initLedger w, files := [],
          apiCalls := 0 }
      else
        let lp := runLoop w language pending 1 (initLedger w)
        { exitCode := if lp.exitMsgs.isSome then 1 else 0, credentialMsgs := lp.exitMsgs,
          trace := lp.trace, final := lp.final, files := lp.files, apiCalls := lp.apiCalls }

/-- Model of main (lines 337-375): ensure the folder (exit 1 when even the
fallback fails), then process the CSV. -/
def mainProgram (w : World) (language : String) : ProgramResult :=
  match ensure_transcripts_folder w.folder with
  | Except.error _ =>
    { exitCode := 1, credentialMsgs := none, trace := [], final := initLedger w, files := [],
      apiCalls := 0 }
  | Except.ok _ => process_csv_urls w language

/-- Generic substring searcher for a Boolean position test, used to relate
the option-valued regex search to the declarative shape predicates. -/
def searchB (g : List Char → Bool) : List Char → Bool
  | [] => g []
  | c :: rest => g (c :: rest) || searchB g rest

/-- Unrolled description of the row loop of read_csv_urls: records are the
long-enough rows mapped in order, skipped rows are the others by row number. -/
theorem processRows_eq (rows : List (List String)) (n : Nat) :
    processRows rows n =
      ((rows.filter (fun r => decide (2 ≤ r.length))).map mkRecord,
       ((List.enumFrom n rows).filter (fun p => decide (p.2.length < 2))).map Prod.fst) := by
  induction rows generalizing n with
  | nil => simp [processRows]
  | cons row rest ih =>
    by_cases h : 2 ≤ row.length
    · have h' : ¬ row.length < 2 := by omega
      simp [processRows, ih, List.enumFrom, h, h']
    · have h' : row.length < 2 := by omega
      simp [processRows, ih, List.enumFrom, h, h']

/-- Projections of read_csv_urls on a present file. -/
theorem read_csv_urls_some (rows : List (List String)) :
    read_csv_urls (some rows) =
      { urls := (rows.filter (fun r => decide (2 ≤ r.length))).map mkRecord,
        skippedRows :=
          ((List.enumFrom 1 rows).filter (fun p => decide (p.2.length < 2))).map Prod.fst,
        missingWarning := false } := by
  simp [read_csv_urls, processRows_eq]

/-- C3: the CSV loader returns one record per row with at least two columns,
in file order, built by stripping surrounding double quotes (mkRecord); every
shorter row's 1-based number is warned about; a missing file gives an empty
sequence with a warning and no error. -/
theorem c3_csv_loader (rows : List (List String)) :
    (read_csv_urls (some rows)).urls =
        (rows.filter (fun r => decide (2 ≤ r.length))).map mkRecord
      ∧ (read_csv_urls (some rows)).skippedRows =
        ((List.enumFrom 1 rows).filter (fun p => decide (p.2.length < 2))).map Prod.fst
      ∧ (read_csv_urls (some rows)).missingWarning = false
      ∧ read_csv_urls none = { urls := [], skippedRows := [], missingWarning := true } := by
  refine ⟨?_, ?_, ?_, rfl⟩ <;> simp [read_csv_urls_some]

/-- C4 as stated is false: the loader accepts a row whose first field is
empty, producing a record with an empty video_id. -/
theorem c4_counterexample :
    ¬ (∀ r ∈ (read_csv_urls (some [["", "u"]])).urls, r.1 ≠ "" ∧ r.2.1 ≠ "") := by
  decide

/-- C4 amended: every record comes from a row with at least two columns and
its video_id and url are exactly the first two fields with surrounding double
quotes stripped; the loader does not enforce their non-emptiness. -/
theorem c4_fields_from_row (rows : List (List String)) (r : UrlRec)
    (hr : r ∈ (read_csv_urls (some rows)).urls) :
    ∃ row ∈ rows, 2 ≤ row.length ∧ r = mkRecord row
      ∧ r.1 = stripQuotes (row.getD 0 "") ∧ r.2.1 = stripQuotes (row.getD 1 "") := by
  rw [read_csv_urls_some] at hr
  rcases List.mem_map.mp hr with ⟨row, hrow, heq⟩
  rcases List.mem_filter.mp hrow with ⟨hmem, hlen⟩
  refine ⟨row, hmem, by simpa using hlen, heq.symm, ?_, ?_⟩ <;> rw [← heq] <;> rfl

theorem c4_fields_from_row_witness :
    (("a", "u", "d") ∈ (read_csv_urls (some [["a", "u", "d"]])).urls)
      ∧ ∃ row ∈ [["a", "u", "d"]], 2 ≤ row.length ∧ (("a", "u", "d") : UrlRec) = mkRecord row
        ∧ ("a" : String) = stripQuotes (row.getD 0 "")
        ∧ ("u" : String) = stripQuotes (row.getD 1 "") :=
  ⟨by decide, c4_fields_from_row [["a", "u", "d"]] ("a", "u", "d") (by decide)⟩

/-- C5 as stated is false for the failed ledger: the code strips whitespace
from the line before splitting at tabs, so a line starting with a space
yields the trimmed first field, not the raw first tab-delimited field. -/
theorem c5_counterexample :
    load_failed_urls (some [" a\tb"]) = ["a"]
      ∧ load_failed_urls_claim (some [" a\tb"]) = [" a"]
      ∧ load_failed_urls (some [" a\tb"]) ≠ load_failed_urls_claim (some [" a\tb"]) := by
  decide

/-- C5 amended: load_completed_urls holds exactly the nonempty stripped
lines, load_failed_urls exactly the nonempty first tab-delimited fields of
the stripped lines, and a missing file gives the empty set. -/
theorem c5_ledger_loaders (lines : List String) (u : String) :
    (u ∈ load_completed_urls (some lines) ↔ (∃ l ∈ lines, strTrim l = u) ∧ u ≠ "")
      ∧ (u ∈ load_failed_urls (some lines) ↔
          (∃ l ∈ lines, firstTabField (strTrim l) = u) ∧ u ≠ "")
      ∧ load_completed_urls none = [] ∧ load_failed_urls none = [] := by
  refine ⟨?_, ?_, rfl, rfl⟩ <;> simp [load_completed_urls, load_failed_urls, List.mem_filter]

/-- C1: with the credential present, every invocation of the fetcher appends
exactly one line to exactly one ledger: the URL to the completed ledger when
it returns success, or one url-tab-reason line to the failed ledger when it
returns failure; the other ledger is untouched in both cases. -/
theorem c1_exactly_one_ledger_line (apiKey : Option String) (k : String) (fo : FolderOutcome)
    (ie : ItemEnv) (url video_id description language : String) (st : LedgerFiles)
    (hk : apiKey = some k) :
    ((get_youtube_transcript apiKey fo ie url video_id description language st).result
          = GytResult.returned true
        ∧ (get_youtube_transcript apiKey fo ie url video_id description language st).state.completed
          = st.completed ++ [url]
        ∧ (get_youtube_transcript apiKey fo ie url video_id description language st).state.failed
          = st.failed)
      ∨ ((get_youtube_transcript apiKey fo ie url video_id description language st).result
          = GytResult.returned false
        ∧ (get_youtube_transcript apiKey fo ie url video_id description language st).state.completed
          = st.completed
        ∧ ∃ reason,
            (get_youtube_transcript apiKey fo ie url video_id description language st).state.failed
              = st.failed ++ [url ++ "\t" ++ reason]) := by
  subst hk
  rcases ie with ⟨ci, fetch, we⟩
  cases fo <;> cases ci <;> cases fetch <;> cases we <;>
    first
      | exact Or.inl ⟨rfl, rfl, rfl⟩
      | exact Or.inr ⟨rfl, rfl, _, rfl⟩

theorem c1_exactly_one_ledger_line_witness :
    (some "key" = some "key")
      ∧ (((get_youtube_transcript (some "key") FolderOutcome.primary
            { clientInitError := none, fetch := FetchOutcome.supadataError "no captions available",
              writeError := none } "https://youtu.be/abc123DEFgh" "abc123DEFgh" "Intro video" "en"
            { completed := [], failed := [] }).result = GytResult.returned true
          ∧ ((get_youtube_transcript (some "key") FolderOutcome.primary
            { clientInitError := none, fetch := FetchOutcome.supadataError "no captions available",
              writeError := none } "https://youtu.be/abc123DEFgh" "abc123DEFgh" "Intro video" "en"
            { completed := [], failed := [] }).state.completed
            = ({ completed := [], failed := [] } : LedgerFiles).completed
              ++ ["https://youtu.be/abc123DEFgh"])
          ∧ (get_youtube_transcript (some "key") FolderOutcome.primary
            { clientInitError := none, fetch := FetchOutcome.supadataError "no captions available",
              writeError := none } "https://youtu.be/abc123DEFgh" "abc123DEFgh" "Intro video" "en"
            { completed := [], failed := [] }).state.failed
            = ({ completed := [], failed := [] } : LedgerFiles).failed)
        ∨ ((get_youtube_transcript (some "key") FolderOutcome.primary
            { clientInitError := none, fetch := FetchOutcome.supadataError "no captions available",
              writeError := none } "https://youtu.be/abc123DEFgh" "abc123DEFgh" "Intro video" "en"
            { completed := [], failed := [] }).result = GytResult.returned false
          ∧ ((get_youtube_transcript (some "key") FolderOutcome.primary
            { clientInitError := none, fetch := FetchOutcome.supadataError "no captions available",
              writeError := none } "https://youtu.be/abc123DEFgh" "abc123DEFgh" "Intro video" "en"
            { completed := [], failed := [] }).state.completed
            = ({ completed := [], failed := [] } : LedgerFiles).completed)
          ∧ ∃ reason,
              (get_youtube_transcript (some "key") FolderOutcome.primary
                { clientInitError := none,
                  fetch := FetchOutcome.supadataError "no captions available",
                  writeError := none } "https://youtu.be/abc123DEFgh" "abc123DEFgh" "Intro video"
                "en" { completed := [], failed := [] }).state.failed
                = ({ completed := [], failed := [] } : LedgerFiles).failed
                  ++ ["https://youtu.be/abc123DEFgh" ++ "\t" ++ reason])) :=
  ⟨rfl, c1_exactly_one_ledger_line (some "key") "key" FolderOutcome.primary
    { clientInitError := none, fetch := FetchOutcome.supadataError "no captions available",
      writeError := none } "https://youtu.be/abc123DEFgh" "abc123DEFgh" "Intro video" "en"
    { completed := [], failed := [] } rfl⟩

/-- Splitting distributes over a separator occurrence after a separator-free
chunk. -/
theorem splitOnChar_append_cons (sep : Char) (a b : List Char) (h : sep ∉ a) :
    splitOnChar sep (a ++ sep :: b) = a :: splitOnChar sep b := by
  induction a with
  | nil => simp [splitOnChar]
  | cons c a' ih =>
    have hc : ¬ c = sep := fun hh => h (hh ▸ List.mem_cons_self c a')
    have h' : sep ∉ a' := fun hh => h (List.mem_cons_of_mem c hh)
    rw [List.cons_append, splitOnChar]
    simp only [beq_eq_false_iff_ne, ne_eq, hc, if_neg, ih h']
    simp [hc]

/-- Rebuilding a string from its character list. -/
theorem strMk_data (s : String) : String.mk s.data = s := rfl

/-- Joining two strings at the data level. -/
theorem strMk_data_append (a b : String) : String.mk (a.data ++ b.data) = a ++ b := rfl

/-- Character list of the composed transcript file content, fully
right-associated with the newline separators exposed. -/
theorem transcriptFileContent_data (vid url desc lang t : String) :
    (transcriptFileContent vid url desc lang t).data
      = ("Video ID: ".data ++ vid.data) ++ '\n' :: (("URL: ".data ++ url.data) ++ '\n' ::
        (("Description: ".data ++ desc.data) ++ '\n' :: (("Language: ".data ++ lang.data) ++ '\n' ::
        (dashes50.data ++ '\n' :: ('\n' :: t.data))))) := by
  have hnl : ("\n" : String).data = ['\n'] := rfl
  simp [transcriptFileContent, String.data_append, hnl]

/-- Line structure of the transcript artifact: the four labelled header lines,
the separator line, a blank line, then the transcript's own lines. -/
theorem splitNlS_transcriptFileContent (vid url desc lang t : String)
    (h1 : '\n' ∉ vid.data) (h2 : '\n' ∉ url.data) (h3 : '\n' ∉ desc.data)
    (h4 : '\n' ∉ lang.data) :
    splitNlS (transcriptFileContent vid url desc lang t)
      = ["Video ID: " ++ vid, "URL: " ++ url, "Description: " ++ desc, "Language: " ++ lang,
         dashes50, ""] ++ splitNlS t := by
  have ha1 : '\n' ∉ "Video ID: ".data ++ vid.data := by
    simp [List.mem_append, h1]
  have ha2 : '\n' ∉ "URL: ".data ++ url.data := by
    simp [List.mem_append, h2]
  have ha3 : '\n' ∉ "Description: ".data ++ desc.data := by
    simp [List.mem_append, h3]
  have ha4 : '\n' ∉ "Language: ".data ++ lang.data := by
    simp [List.mem_append, h4]
  have ha5 : '\n' ∉ dashes50.data := by decide
  unfold splitNlS
  rw [transcriptFileContent_data,
    splitOnChar_append_cons '\n' _ _ ha1, splitOnChar_append_cons '\n' _ _ ha2,
    splitOnChar_append_cons '\n' _ _ ha3, splitOnChar_append_cons '\n' _ _ ha4,
    splitOnChar_append_cons '\n' _ _ ha5]
  rw [show splitOnChar '\n' ('\n' :: t.data) = [] :: splitOnChar '\n' t.data from by
    simp [splitOnChar]]
  simp only [List.map_cons, strMk_data_append, strMk_data]
  rfl

/-- C6: on a successful fetch and write, exactly one file named
dir/video_id.txt is produced, whose first four lines are the labelled
video id, url, description and language, followed by the fifty-dash
separator line, a blank line, and the transcript text. -/
theorem c6_transcript_artifact (apiKey : Option String) (k : String) (fo : FolderOutcome)
    (dir : String) (ie : ItemEnv) (url vid desc lang t : String) (st : LedgerFiles)
    (hk : apiKey = some k) (hf : ensure_transcripts_folder fo = Except.ok dir)
    (hci : ie.clientInitError = none) (hfe : ie.fetch = FetchOutcome.success t)
    (hw : ie.writeError = none)
    (h1 : '\n' ∉ vid.data) (h2 : '\n' ∉ url.data) (h3 : '\n' ∉ desc.data)
    (h4 : '\n' ∉ lang.data) :
    (get_youtube_transcript apiKey fo ie url vid desc lang st).files
        = [(dir ++ "/" ++ vid ++ ".txt", transcriptFileContent vid url desc lang t)]
      ∧ splitNlS (transcriptFileContent vid url desc lang t)
        = ["Video ID: " ++ vid, "URL: " ++ url, "Description: " ++ desc, "Language: " ++ lang,
           dashes50, ""] ++ splitNlS t := by
  constructor
  · subst hk
    rcases ie with ⟨ci, fetch, we⟩
    cases ci with
    | some m => simp at hci
    | none =>
      cases we with
      | some m => simp at hw
      | none =>
        simp only at hfe
        subst hfe
        cases fo <;> simp_all [get_youtube_transcript, load_environment,
          ensure_transcripts_folder]
  · exact splitNlS_transcriptFileContent vid url desc lang t h1 h2 h3 h4

theorem c6_transcript_artifact_witness :
    ((some "key" : Option String) = some "key"
        ∧ ensure_transcripts_folder FolderOutcome.primary = Except.ok "transcripts"
        ∧ '\n' ∉ ("abc123DEFgh" : String).data)
      ∧ ((get_youtube_transcript (some "key") FolderOutcome.primary
            { clientInitError := none, fetch := FetchOutcome.success "Hello world.",
              writeError := none } "https://youtu.be/abc123DEFgh" "abc123DEFgh" "Intro video" "en"
            { completed := [], failed := [] }).files
          = [("transcripts" ++ "/" ++ "abc123DEFgh" ++ ".txt",
              transcriptFileContent "abc123DEFgh" "https://youtu.be/abc123DEFgh" "Intro video"
                "en" "Hello world.")]
        ∧ splitNlS (transcriptFileContent "abc123DEFgh" "https://youtu.be/abc123DEFgh"
            "Intro video" "en" "Hello world.")
          = ["Video ID: " ++ "abc123DEFgh", "URL: " ++ "https://youtu.be/abc123DEFgh",
             "Description: " ++ "Intro video", "Language: " ++ "en", dashes50, ""]
            ++ splitNlS "Hello world.") :=
  ⟨⟨rfl, rfl, by decide⟩,
    c6_transcript_artifact (some "key") "key" FolderOutcome.primary "transcripts"
      { clientInitError := none, fetch := FetchOutcome.success "Hello world.",
        writeError := none } "https://youtu.be/abc123DEFgh" "abc123DEFgh" "Intro video" "en"
      "Hello world." { completed := [], failed := [] } rfl rfl rfl rfl rfl
      (by decide) (by decide) (by decide) (by decide)⟩

/-- With the credential present the fetcher always returns (never exits). -/
theorem gyt_returned (k : String) (fo : FolderOutcome) (ie : ItemEnv)
    (url vid desc lang : String) (st : LedgerFiles) :
    ∃ b, (get_youtube_transcript (some k) fo ie url vid desc lang st).result
      = GytResult.returned b := by
  rcases ie with ⟨ci, fetch, we⟩
  cases fo <;> cases ci <;> cases fetch <;> cases we <;> exact ⟨_, rfl⟩

/-- With the credential present, the loop never exits early and its trace is
the pending invocations in order, with a five-second pause interspersed
after every item except the last. -/
theorem runLoop_trace (w : World) (lang k : String) (hk : w.apiKey = some k) :
    ∀ (pend : List UrlRec) (i : Nat) (st : LedgerFiles),
      (runLoop w lang pend i st).exitMsgs = none
        ∧ (runLoop w lang pend i st).trace
          = List.intersperse (Event.pause 5) (pend.map Event.invoke) := by
  intro pend
  induction pend with
  | nil => intro i st; exact ⟨rfl, rfl⟩
  | cons r rest ih =>
    intro i st
    simp only [runLoop, hk]
    obtain ⟨b, hb⟩ := gyt_returned k w.folder (w.items i) r.2.1 r.1 r.2.2 lang st
    rw [hb]
    cases rest with
    | nil => exact ⟨rfl, rfl⟩
    | cons r2 rest' =>
      obtain ⟨ih1, ih2⟩ := ih (i + 1)
        (get_youtube_transcript (some k) w.folder (w.items i) r.2.1 r.1 r.2.2 lang st).state
      refine ⟨ih1, ?_⟩
      simp [ih2, List.intersperse]

/-- Selecting the invocations from an interspersed trace recovers the list. -/
theorem filterMap_invokeOf_intersperse (l : List UrlRec) :
    (List.intersperse (Event.pause 5) (l.map Event.invoke)).filterMap invokeOf = l := by
  induction l with
  | nil => rfl
  | cons a t ih =>
    cases t with
    | nil => rfl
    | cons b t' =>
      simp only [List.map_cons, List.intersperse_cons_cons, List.filterMap_cons]
      simp only [invokeOf, List.map_cons] at ih ⊢
      rw [ih]

/-- The trace of a whole run, with credential present and a usable transcripts
directory: the pending invocations interspersed with the fixed pauses. -/
theorem process_trace_eq (w : World) (lang k dir : String) (hk : w.apiKey = some k)
    (hf : ensure_transcripts_folder w.folder = Except.ok dir) :
    (process_csv_urls w lang).trace
      = List.intersperse (Event.pause 5) ((pendingOf w).map Event.invoke) := by
  rw [process_csv_urls, hf]
  by_cases hu : (read_csv_urls w.csvRows).urls.isEmpty
  · have hp : pendingOf w = [] := by
      unfold pendingOf
      rw [List.isEmpty_iff.mp hu]
      rfl
    simp [hu, hp]
  · simp only [hu, if_false, Bool.false_eq_true]
    by_cases hp : (pendingOf w).isEmpty
    · rw [List.isEmpty_iff.mp hp]
      simp [hp]
    · simp only [hp, if_false, Bool.false_eq_true]
      exact (runLoop_trace w lang k hk (pendingOf w) 1 (initLedger w)).2

/-- Invocations of a whole run, under the same hypotheses. -/
theorem process_invoked_eq (w : World) (lang k dir : String) (hk : w.apiKey = some k)
    (hf : ensure_transcripts_folder w.folder = Except.ok dir) :
    (process_csv_urls w lang).trace.filterMap invokeOf = pendingOf w := by
  rw [process_trace_eq w lang k dir hk hf, filterMap_invokeOf_intersperse]

/-- C2: with credential and directory available, the records handed to the
fetcher are exactly the CSV records whose URL is in neither ledger loaded at
the start of the run, and no invoked record's URL is in either ledger. -/
theorem c2_pending_only (w : World) (lang k dir : String) (hk : w.apiKey = some k)
    (hf : ensure_transcripts_folder w.folder = Except.ok dir) :
    (process_csv_urls w lang).trace.filterMap invokeOf = pendingOf w
      ∧ ∀ r : UrlRec, Event.invoke r ∈ (process_csv_urls w lang).trace →
          r.2.1 ∉ load_completed_urls w.completedLines
            ∧ r.2.1 ∉ load_failed_urls w.failedLines := by
  refine ⟨process_invoked_eq w lang k dir hk hf, fun r hr => ?_⟩
  have hmem : r ∈ (process_csv_urls w lang).trace.filterMap invokeOf :=
    List.mem_filterMap.mpr ⟨Event.invoke r, hr, rfl⟩
  rw [process_invoked_eq w lang k dir hk hf] at hmem
  have := (List.mem_filter.mp hmem).2
  exact of_decide_eq_true this

def c2World : World :=
  { apiKey := some "key", folder := FolderOutcome.primary,
    csvRows := some [["a", "u1", ""], ["b", "u2", "d"]],
    completedLines := some ["u2"], failedLines := none,
    items := fun _ => ⟨none, FetchOutcome.success "T", none⟩ }

theorem c2_pending_only_witness :
    (c2World.apiKey = some "key"
        ∧ ensure_transcripts_folder c2World.folder = Except.ok "transcripts")
      ∧ (process_csv_urls c2World "en").trace.filterMap invokeOf = pendingOf c2World
      ∧ pendingOf c2World = [("a", "u1", "")] :=
  ⟨⟨rfl, rfl⟩, (c2_pending_only c2World "en" "key" "transcripts" rfl rfl).1, by decide⟩

/-- C8: with credential and directory available and a nonempty pending set,
the run's trace is exactly the pending records invoked strictly in CSV file
order with one five-second pause after every item except the last. -/
theorem c8_order_and_pauses (w : World) (lang k dir : String) (hk : w.apiKey = some k)
    (hf : ensure_transcripts_folder w.folder = Except.ok dir) (_hp : pendingOf w ≠ []) :
    (process_csv_urls w lang).trace
      = List.intersperse (Event.pause 5) ((pendingOf w).map Event.invoke) :=
  process_trace_eq w lang k dir hk hf

def c8World : World :=
  { apiKey := some "key", folder := FolderOutcome.primary,
    csvRows := some [["a", "u1", ""], ["b", "u2", ""], ["c", "u3", ""]],
    completedLines := none, failedLines := none,
    items := fun _ => ⟨none, FetchOutcome.success "T", none⟩ }

theorem c8_order_and_pauses_witness :
    (c8World.apiKey = some "key"
        ∧ ensure_transcripts_folder c8World.folder = Except.ok "transcripts"
        ∧ pendingOf c8World ≠ [])
      ∧ (process_csv_urls c8World "en").trace
        = List.intersperse (Event.pause 5) ((pendingOf c8World).map Event.invoke) :=
  ⟨⟨rfl, rfl, by decide⟩, c8_order_and_pauses c8World "en" "key" "transcripts" rfl rfl (by decide)⟩

/-- Counting a url in the filtered pending list equals counting it in the
whole CSV list when the url is in neither ledger set. -/
theorem count_filter_pending (c f : List String) (urls : List UrlRec) (u : String)
    (hc : u ∉ c) (hf : u ∉ f) :
    ((urls.filter (fun r => decide (r.2.1 ∉ c ∧ r.2.1 ∉ f))).map (fun r => r.2.1)).count u
      = (urls.map (fun r => r.2.1)).count u := by
  have hq : ((fun v : String => decide (v ∉ c ∧ v ∉ f)) ∘ (fun r : UrlRec => r.2.1))
      = fun r : UrlRec => decide (r.2.1 ∉ c ∧ r.2.1 ∉ f) := rfl
  rw [← hq, ← List.filter_map (fun r : UrlRec => r.2.1) urls]
  exact List.count_filter (decide_eq_true ⟨hc, hf⟩)

/-- C10: the pending set is fixed at the start of the run, so a URL in
neither initial ledger is fetched once per CSV occurrence, even though
earlier occurrences append to the ledgers during the run. -/
theorem c10_once_per_occurrence (w : World) (lang k dir u : String) (hk : w.apiKey = some k)
    (hf : ensure_transcripts_folder w.folder = Except.ok dir)
    (hc : u ∉ load_completed_urls w.completedLines)
    (hfl : u ∉ load_failed_urls w.failedLines) :
    (((process_csv_urls w lang).trace.filterMap invokeOf).map (fun r => r.2.1)).count u
      = ((read_csv_urls w.csvRows).urls.map (fun r => r.2.1)).count u := by
  rw [process_invoked_eq w lang k dir hk hf]
  unfold pendingOf
  exact count_filter_pending (load_completed_urls w.completedLines)
    (load_failed_urls w.failedLines) (read_csv_urls w.csvRows).urls u hc hfl

def c10World : World :=
  { apiKey := some "key", folder := FolderOutcome.primary,
    csvRows := some [["i1", "u", ""], ["i2", "u", ""]],
    completedLines := none, failedLines := none,
    items := fun _ => ⟨none, FetchOutcome.success "T", none⟩ }

theorem c10_once_per_occurrence_witness :
    (c10World.apiKey = some "key"
        ∧ ensure_transcripts_folder c10World.folder = Except.ok "transcripts"
        ∧ ("u" : String) ∉ load_completed_urls c10World.completedLines
        ∧ ("u" : String) ∉ load_failed_urls c10World.failedLines)
      ∧ (((process_csv_urls c10World "en").trace.filterMap invokeOf).map
          (fun r => r.2.1)).count "u"
        = ((read_csv_urls c10World.csvRows).urls.map (fun r => r.2.1)).count "u"
      ∧ (((process_csv_urls c10World "en").trace.filterMap invokeOf).map
          (fun r => r.2.1)).count "u" = 2 :=
  ⟨⟨rfl, rfl, by decide, by decide⟩,
    c10_once_per_occurrence c10World "en" "key" "transcripts" "u" rfl rfl (by decide) (by decide),
    by decide⟩

def c7NoPendingWorld : World :=
  { apiKey := none, folder := FolderOutcome.primary, csvRows := none,
    completedLines := none, failedLines := none,
    items := fun _ => ⟨none, FetchOutcome.success "T", none⟩ }

/-- C7 as stated is false: the key is only checked inside the per-item
fetcher, so a run with an absent credential but nothing pending (here: a
missing CSV) never reaches load_environment and exits normally with code 0
and no instructional message. -/
theorem c7_counterexample :
    c7NoPendingWorld.apiKey = none
      ∧ (mainProgram c7NoPendingWorld "en").exitCode = 0
      ∧ (mainProgram c7NoPendingWorld "en").credentialMsgs = none := by
  refine ⟨rfl, ?_, ?_⟩ <;> rfl

/-- C7 amended: when the credential is absent, the directory is usable and at
least one record is pending, the first fetch attempt exits the process with
code 1 and the instructional message, with no API call made, both ledgers
unchanged and no transcript file written. -/
theorem c7_missing_key_exits (w : World) (lang dir : String) (hk : w.apiKey = none)
    (hf : ensure_transcripts_folder w.folder = Except.ok dir) (hp : pendingOf w ≠ []) :
    (mainProgram w lang).exitCode = 1
      ∧ (mainProgram w lang).credentialMsgs = some credentialInstructions
      ∧ (mainProgram w lang).apiCalls = 0
      ∧ (mainProgram w lang).final = initLedger w
      ∧ (mainProgram w lang).files = [] := by
  obtain ⟨r, rest, hpend⟩ := List.exists_cons_of_ne_nil hp
  have hurls : (read_csv_urls w.csvRows).urls ≠ [] := by
    intro h0
    apply hp
    unfold pendingOf
    rw [h0]
    rfl
  obtain ⟨a, as, hu⟩ := List.exists_cons_of_ne_nil hurls
  rw [mainProgram, hf, process_csv_urls, hf]
  rw [hu, hpend]
  simp only [List.isEmpty_cons, if_false, Bool.false_eq_true]
  rw [runLoop, hk]
  simp [get_youtube_transcript, load_environment]

def c7PendingWorld : World :=
  { apiKey := none, folder := FolderOutcome.primary, csvRows := some [["i", "u", ""]],
    completedLines := none, failedLines := none,
    items := fun _ => ⟨none, FetchOutcome.success "T", none⟩ }

theorem c7_missing_key_exits_witness :
    (c7PendingWorld.apiKey = none
        ∧ ensure_transcripts_folder c7PendingWorld.folder = Except.ok "transcripts"
        ∧ pendingOf c7PendingWorld ≠ [])
      ∧ ((mainProgram c7PendingWorld "en").exitCode = 1
        ∧ (mainProgram c7PendingWorld "en").credentialMsgs = some credentialInstructions
        ∧ (mainProgram c7PendingWorld "en").apiCalls = 0
        ∧ (mainProgram c7PendingWorld "en").final = initLedger c7PendingWorld
        ∧ (mainProgram c7PendingWorld "en").files = []) :=
  ⟨⟨rfl, rfl, by decide⟩,
    c7_missing_key_exits c7PendingWorld "en" "transcripts" rfl rfl (by decide)⟩

/-- Option search succeeds exactly where the pointwise Boolean test does. -/
theorem searchAux_isSome (f : List Char → Option (List Char)) (g : List Char → Bool)
    (hfg : ∀ t, (f t).isSome = g t) : ∀ s, (searchAux f s).isSome = searchB g s := by
  intro s
  induction s with
  | nil =>
    simp only [searchAux, searchB]
    exact hfg []
  | cons c rest ih =>
    simp only [searchAux, searchB]
    rw [← hfg (c :: rest), ← ih]
    cases hp : f (c :: rest) <;> simp [hp]

/-- Search for a three-way disjunction is the disjunction of the searches. -/
theorem searchB_or3 (g1 g2 g3 : List Char → Bool) (s : List Char) :
    searchB (fun t => g1 t || g2 t || g3 t) s = (searchB g1 s || searchB g2 s || searchB g3 s) := by
  induction s with
  | nil => rfl
  | cons c rest ih =>
    simp only [searchB, ih]
    cases g1 (c :: rest) <;> cases g2 (c :: rest) <;> cases g3 (c :: rest) <;>
      cases searchB g1 rest <;> cases searchB g2 rest <;> cases searchB g3 rest <;> rfl

/-- The declarative shape search is an instance of the generic searcher. -/
theorem shapeIn_eq_searchB (lit : List Char) (s : List Char) :
    shapeIn lit s = searchB (shapeAt lit) s := by
  induction s with
  | nil => rfl
  | cons c rest ih => simp only [shapeIn, searchB, ih]

/-- The loose watch search is an instance of the generic searcher. -/
theorem watchAnyVIn_eq_searchB (s : List Char) :
    watchAnyVIn s = searchB watchAnyVAt s := by
  induction s with
  | nil => rfl
  | cons c rest ih => simp only [watchAnyVIn, searchB, ih]

/-- Success condition of the id-group matcher. -/
theorem takeId_isSome (s : List Char) :
    (takeId s).isSome = ((s.take 11).length == 11 && (s.take 11).all isIdChar) := by
  simp only [takeId]
  split <;> simp_all

/-- The id group always has eleven characters. -/
theorem takeId_some_length (s : List Char) (r : List Char) (h : takeId s = some r) :
    r.length = 11 := by
  simp only [takeId] at h
  split at h
  · cases h
    rename_i hc
    simp only [Bool.and_eq_true, beq_iff_eq] at hc
    exact hc.1
  · exact absurd h (by simp)

/-- Success condition of the literal-plus-id matcher. -/
theorem litIdAt_isSome (lit : List Char) (s : List Char) :
    (litIdAt lit s).isSome = shapeAt lit s := by
  unfold litIdAt shapeAt
  cases hp : lit.isPrefixOf s <;> simp [hp, takeId_isSome]

/-- The literal-plus-id matcher returns eleven characters. -/
theorem litIdAt_some_length (lit s r : List Char) (h : litIdAt lit s = some r) :
    r.length = 11 := by
  unfold litIdAt at h
  split at h
  · exact takeId_some_length _ _ h
  · exact absurd h (by simp)

/-- Success condition of the first pattern at one position: one of its three
alternatives matches there. -/
theorem p1At_isSome (s : List Char) :
    (p1At s).isSome = (shapeAt ("youtube.com/watch?v=".data) s
      || shapeAt ("youtu.be/".data) s || shapeAt ("youtube.com/embed/".data) s) := by
  unfold p1At
  rw [← litIdAt_isSome ("youtube.com/watch?v=".data) s, ← litIdAt_isSome ("youtu.be/".data) s,
    ← litIdAt_isSome ("youtube.com/embed/".data) s]
  cases litIdAt ("youtube.com/watch?v=".data) s <;>
    cases litIdAt ("youtu.be/".data) s <;>
    cases litIdAt ("youtube.com/embed/".data) s <;> rfl

/-- The first pattern returns eleven characters. -/
theorem p1At_some_length (s r : List Char) : p1At s = some r → r.length = 11 := by
  unfold p1At
  cases h1 : litIdAt ("youtube.com/watch?v=".data) s with
  | some x =>
    intro h
    cases h
    exact litIdAt_some_length _ _ _ h1
  | none =>
    cases h2 : litIdAt ("youtu.be/".data) s with
    | some x =>
      intro h
      cases h
      exact litIdAt_some_length _ _ _ h2
    | none =>
      intro h
      exact litIdAt_some_length _ _ _ h

/-- Success condition of the greedy tail of the second pattern. -/
theorem greedyVEq_isSome (t : List Char) : (greedyVEq t).isSome = vShapeFrom t := by
  induction t with
  | nil =>
    rw [greedyVEq, vShapeFrom]
    unfold vEqAt
    exact litIdAt_isSome _ _
  | cons c rest ih =>
    rw [greedyVEq, vShapeFrom]
    cases hc : (c == '\n') with
    | true => simp [vEqAt, litIdAt_isSome, bne, hc]
    | false =>
      cases hg : greedyVEq rest with
      | some r =>
        rw [hg] at ih
        simp [vEqAt, litIdAt_isSome, bne, hc, ← ih]
      | none =>
        rw [hg] at ih
        simp [vEqAt, litIdAt_isSome, bne, hc, ← ih]

/-- The greedy tail returns eleven characters. -/
theorem greedyVEq_some_length (t r : List Char) : greedyVEq t = some r → r.length = 11 := by
  induction t with
  | nil =>
    intro h
    rw [greedyVEq] at h
    unfold vEqAt at h
    exact litIdAt_some_length _ _ _ h
  | cons c rest ih =>
    intro h
    rw [greedyVEq] at h
    by_cases hc : (c == '\n') = true
    · rw [if_pos hc] at h
      exact litIdAt_some_length _ _ _ h
    · rw [if_neg hc] at h
      cases hg : greedyVEq rest with
      | some x =>
        rw [hg] at h
        exact ih (hg.trans h)
      | none =>
        rw [hg] at h
        exact litIdAt_some_length _ _ _ h

/-- Success condition of the second pattern at one position. -/
theorem p2At_isSome (s : List Char) : (p2At s).isSome = watchAnyVAt s := by
  unfold p2At watchAnyVAt
  cases hp : ("youtube.com/watch?".data).isPrefixOf s <;> simp [hp, greedyVEq_isSome]

/-- The second pattern returns eleven characters. -/
theorem p2At_some_length (s r : List Char) : p2At s = some r → r.length = 11 := by
  unfold p2At
  split
  · exact greedyVEq_some_length _ _
  · intro h
    exact absurd h (by simp)

/-- Success condition of the third pattern at one position. -/
theorem p3At_isSome (s : List Char) :
    (p3At s).isSome = shapeAt ("youtube.com/v/".data) s :=
  litIdAt_isSome _ _

/-- The third pattern returns eleven characters. -/
theorem p3At_some_length (s r : List Char) : p3At s = some r → r.length = 11 :=
  litIdAt_some_length _ _ _

/-- A successful search value comes from some position's match. -/
theorem searchAux_some_length (f : List Char → Option (List Char))
    (hf : ∀ t r, f t = some r → r.length = 11) :
    ∀ s r, searchAux f s = some r → r.length = 11 := by
  intro s
  induction s with
  | nil =>
    intro r h
    exact hf [] r h
  | cons c rest ih =>
    intro r h
    rw [searchAux] at h
    cases hp : f (c :: rest) with
    | some x =>
      rw [hp] at h
      exact hf _ _ (hp.trans h)
    | none =>
      rw [hp] at h
      exact ih r h

/-- The first pattern's search succeeds exactly when one of its three shapes
occurs in the string. -/
theorem searchP1_isSome (s : List Char) :
    (searchAux p1At s).isSome = (shapeIn ("youtube.com/watch?v=".data) s
      || shapeIn ("youtu.be/".data) s || shapeIn ("youtube.com/embed/".data) s) := by
  calc (searchAux p1At s).isSome
      = searchB (fun t => shapeAt ("youtube.com/watch?v=".data) t
          || shapeAt ("youtu.be/".data) t || shapeAt ("youtube.com/embed/".data) t) s :=
        searchAux_isSome p1At _ p1At_isSome s
    _ = (searchB (shapeAt ("youtube.com/watch?v=".data)) s
          || searchB (shapeAt ("youtu.be/".data)) s
          || searchB (shapeAt ("youtube.com/embed/".data)) s) :=
        searchB_or3 _ _ _ s
    _ = (shapeIn ("youtube.com/watch?v=".data) s
          || shapeIn ("youtu.be/".data) s || shapeIn ("youtube.com/embed/".data) s) := by
        rw [← shapeIn_eq_searchB, ← shapeIn_eq_searchB, ← shapeIn_eq_searchB]

/-- The second pattern's search succeeds exactly when the loose watch shape
occurs in the string. -/
theorem searchP2_isSome (s : List Char) :
    (searchAux p2At s).isSome = watchAnyVIn s :=
  (searchAux_isSome p2At watchAnyVAt p2At_isSome s).trans (watchAnyVIn_eq_searchB s).symm

/-- The third pattern's search succeeds exactly when its shape occurs in the
string. -/
theorem searchP3_isSome (s : List Char) :
    (searchAux p3At s).isSome = shapeIn ("youtube.com/v/".data) s :=
  (searchAux_isSome p3At _ p3At_isSome s).trans (shapeIn_eq_searchB _ s).symm

/-- The extractor succeeds exactly on the URLs with one of the recognized
shapes. -/
theorem extract_isSome_eq (url : String) :
    (extract_video_id url).isSome = codeShapes url := by
  unfold extract_video_id codeShapes
  cases h1 : searchAux p1At url.data with
  | some r =>
    have t1 := searchP1_isSome url.data
    rw [h1] at t1
    simp only [Option.isSome_some] at t1
    simp [← t1]
  | none =>
    have t1 := searchP1_isSome url.data
    rw [h1] at t1
    simp only [Option.isSome_none] at t1
    cases h2 : searchAux p2At url.data with
    | some r =>
      have t2 := searchP2_isSome url.data
      rw [h2] at t2
      simp only [Option.isSome_some] at t2
      simp [← t1, ← t2]
    | none =>
      have t2 := searchP2_isSome url.data
      rw [h2] at t2
      simp only [Option.isSome_none] at t2
      cases h3 : searchAux p3At url.data with
      | some r =>
        have t3 := searchP3_isSome url.data
        rw [h3] at t3
        simp only [Option.isSome_some] at t3
        simp [← t1, ← t2, ← t3]
      | none =>
        have t3 := searchP3_isSome url.data
        rw [h3] at t3
        simp only [Option.isSome_none] at t3
        simp [← t1, ← t2, ← t3]

/-- A returned id always has eleven characters. -/
theorem extract_some_length (url : String) (id : String)
    (h : extract_video_id url = some id) : id.length = 11 := by
  unfold extract_video_id at h
  cases h1 : searchAux p1At url.data with
  | some r =>
    rw [h1] at h
    cases h
    exact searchAux_some_length p1At p1At_some_length url.data r h1
  | none =>
    rw [h1] at h
    cases h2 : searchAux p2At url.data with
    | some r =>
      rw [h2] at h
      cases h
      exact searchAux_some_length p2At p2At_some_length url.data r h2
    | none =>
      rw [h2] at h
      cases h3 : searchAux p3At url.data with
      | some r =>
        rw [h3] at h
        cases h
        exact searchAux_some_length p3At p3At_some_length url.data r h3
      | none =>
        rw [h3] at h
        exact absurd h (by simp)

/-- C9 as stated is false: the second source pattern does not require an
ampersand before v= inside the query, so this URL matches none of the five
listed shapes yet the extractor returns an id. -/
theorem c9_counterexample :
    extract_video_id "youtube.com/watch?xv=abcdefghijk" = some "abcdefghijk"
      ∧ claimShapes "youtube.com/watch?xv=abcdefghijk" = false := by
  constructor <;> rfl

/-- C9 amended: the extractor returns an id exactly when the string contains
one of the shapes youtube.com/watch?v=, youtu.be/, youtube.com/embed/ or
youtube.com/v/ followed by eleven id characters, or youtube.com/watch?
followed by any characters on one line and then v= and eleven id characters
(no ampersand required); any returned id has exactly eleven characters. -/
theorem c9_extractor_shapes (url : String) :
    match extract_video_id url with
    | some id => codeShapes url = true ∧ id.length = 11
    | none => codeShapes url = false := by
  cases h : extract_video_id url with
  | some id =>
    refine ⟨?_, extract_some_length url id h⟩
    rw [← extract_isSome_eq, h]
    rfl
  | none =>
    rw [← extract_isSome_eq, h]
    rfl
